import Mathlib

/-!
Shallow embedding of the movie-review single-page application
(src/src/App.jsx): the form state, the payload normalization and
validation performed by the submit handler, the list loader, and the
resulting state transitions.  Network interactions are modelled by
passing the response each fetch would produce as an explicit argument.
-/

namespace MovieApp

/-- Exact value of a JavaScript number as an unnormalized fraction
num / den with den positive by construction.  (JS numbers are binary
floats; the decimal literals appearing here are modelled by their exact
rational values.) -/
structure JsNum where
  num : Int
  den : Nat
  deriving DecidableEq, Repr

/-- Review record as held in the list state (spec section 3; the GET
response is stored as-is by setItems). -/
structure Review where
  id : Nat
  title : String
  rating : JsNum
  review : String
  watched_on : Option String
  poster_url : Option String
  tags : Option (List String)
  deriving DecidableEq, Repr

/-- Form state of the submission form.  The source initializes rating to
the number 7; since the field is only ever read through the Number
conversion (and re-rendered), and onChange writes strings, the field is
modelled as a string with default value the numeral string. -/
structure FormState where
  title : String
  rating : String
  review : String
  watched_on : String
  poster_url : String
  tags : String
  deriving DecidableEq, Repr

/-- Default form values from useState in App and from the reset after a
successful save (both literals are identical in the source). -/
def defaultForm : FormState :=
  { title := "", rating := "7", review := "", watched_on := "",
    poster_url := "", tags := "" }

/-- Whole-app state: the useState hooks of App. -/
structure AppState where
  form : FormState
  submitting : Bool
  error : String
  success : String
  items : List Review
  loading : Bool
  deriving DecidableEq, Repr

/-- Initial state of the App component: empty form, loading starts true. -/
def initState : AppState :=
  { form := defaultForm, submitting := false, error := "", success := "",
    items := [], loading := true }

/-- Model of JavaScript String.prototype.trim: strip leading and
trailing whitespace characters.  (JS also strips some exotic Unicode
space characters; only ASCII whitespace is modelled.) -/
def jsTrim (s : String) : String :=
  String.mk (((s.data.dropWhile Char.isWhitespace).reverse.dropWhile
    Char.isWhitespace).reverse)

/-- Splitting a character list on a separator character; the empty list
yields one empty piece, matching JS split on an empty string. -/
def splitOnCharAux (sep : Char) : List Char → List (List Char)
  | [] => [[]]
  | c :: rest =>
    if c = sep then [] :: splitOnCharAux sep rest
    else
      match splitOnCharAux sep rest with
      | [] => [[c]]
      | p :: ps => (c :: p) :: ps

/-- Model of JavaScript String.prototype.split with a one-character
separator: the pieces between occurrences of the separator, in order,
empty pieces included. -/
def jsSplit (sep : Char) (s : String) : List String :=
  (splitOnCharAux sep s.data).map String.mk

/-- Numeric value of a digit string, most significant digit first. -/
def digitsVal (l : List Char) : Nat :=
  l.foldl (fun acc c => acc * 10 + (c.toNat - 48)) 0

/-- Split a character list into its leading digits and the rest. -/
def parseDigits (cs : List Char) : List Char × List Char :=
  (cs.takeWhile Char.isDigit, cs.dropWhile Char.isDigit)

/-- Optional exponent suffix of a JavaScript decimal literal: nothing, or
e/E followed by an optional sign and digits.  Returns the sign (true for
nonnegative) and magnitude, or none when the suffix is malformed. -/
def parseExpSuffix (cs : List Char) : Option (Bool × Nat) :=
  match cs with
  | [] => some (true, 0)
  | c :: rest =>
    if c = 'e' ∨ c = 'E' then
      let signRest : Bool × List Char :=
        match rest with
        | '+' :: r => (true, r)
        | '-' :: r => (false, r)
        | r => (true, r)
      let ds := parseDigits signRest.2
      if ds.1 = [] ∨ ds.2 ≠ [] then none else some (signRest.1, digitsVal ds.1)
    else none

/-- Unsigned JavaScript decimal literal: digits, optionally with a
fractional part and an exponent ("5", "5.", ".5", "5.25e-1").  The
mantissa digits give the numerator over a power-of-ten denominator and
the exponent scales numerator or denominator.  Returns none when the
characters do not form such a literal (NaN). -/
def parseUnsignedDec (cs : List Char) : Option JsNum :=
  let ip := parseDigits cs
  match ip.2 with
  | '.' :: r2 =>
    let fp := parseDigits r2
    if ip.1 = [] ∧ fp.1 = [] then none
    else
      match parseExpSuffix fp.2 with
      | none => none
      | some e =>
        let num0 : Nat := digitsVal ip.1 * 10 ^ fp.1.length + digitsVal fp.1
        let den0 : Nat := 10 ^ fp.1.length
        some (if e.1 then { num := (num0 * 10 ^ e.2 : Nat), den := den0 }
              else { num := (num0 : Nat), den := den0 * 10 ^ e.2 })
  | _ =>
    if ip.1 = [] then none
    else
      match parseExpSuffix ip.2 with
      | none => none
      | some e =>
        let num0 : Nat := digitsVal ip.1
        some (if e.1 then { num := (num0 * 10 ^ e.2 : Nat), den := 1 }
              else { num := (num0 : Nat), den := 10 ^ e.2 })

/-- Model of the JavaScript Number(string) conversion used for the rating
field: surrounding whitespace is ignored, the empty (or all-whitespace)
string converts to 0, and otherwise an optionally signed decimal literal
is parsed; a string that is not such a literal yields NaN, modelled as
none.  (The hexadecimal, octal, binary and Infinity forms of the Number
grammar are not modelled; they cannot be produced by the claims'
inputs.) -/
def jsNumber (s : String) : Option JsNum :=
  let t := jsTrim s
  if t = "" then some { num := 0, den := 1 }
  else
    match t.data with
    | '+' :: cs => parseUnsignedDec cs
    | '-' :: cs => (parseUnsignedDec cs).map (fun q => { q with num := -q.num })
    | cs => parseUnsignedDec cs

/-- Body of the POST request built by onSubmit.  rating is the Number
conversion of the raw field, with none standing for NaN; nulls are
modelled as none. -/
structure Payload where
  title : String
  review : String
  rating : Option JsNum
  watched_on : Option String
  poster_url : Option String
  tags : Option (List String)
  deriving DecidableEq, Repr

/-- The payload object literal of onSubmit: title and review trimmed,
rating converted via Number, empty (falsy) watched_on and poster_url
become null, and the tags string, when truthy, is split on commas,
trimmed and filtered of empty pieces (filter Boolean). -/
def mkPayload (f : FormState) : Payload :=
  { title := jsTrim f.title
  , review := jsTrim f.review
  , rating := jsNumber f.rating
  , watched_on := if f.watched_on = "" then none else some f.watched_on
  , poster_url := if f.poster_url = "" then none else some f.poster_url
  , tags :=
      if f.tags = "" then none
      else some (((jsSplit ',' f.tags).map jsTrim).filter (fun t => t ≠ "")) }

/-- Rating check of onSubmit: Number.isNaN(rating) or rating below 0 or
above 10, the comparisons read on the fraction with its positive
denominator. -/
def ratingInvalid : Option JsNum → Bool
  | none => true
  | some r => decide (r.num < 0) || decide (r.num > 10 * (r.den : Int))

/-- The two validation checks of onSubmit, in source order: missing
title/review first, then the rating range; some msg is the message of
the Error thrown. -/
def validationError (p : Payload) : Option String :=
  if p.title = "" ∨ p.review = "" then
    some "Please provide at least a title and your review."
  else if ratingInvalid p.rating then
    some "Rating must be between 0 and 10"
  else none

/-- Outcome of the GET /api/reviews fetch as seen by loadReviews: a 2xx
response with a parsed JSON array, a non-2xx status (res.ok false), or a
thrown exception from fetch or JSON decoding with its message. -/
inductive GetResponse where
  | ok (data : List Review)
  | httpError (status : Nat)
  | networkError (msg : String)
  deriving DecidableEq, Repr

/-- Whether the GET response is the success case. -/
def GetResponse.isOk : GetResponse → Bool
  | .ok _ => true
  | _ => false

/-- The loadReviews function: sets loading, fetches, on success replaces
items with the response, on a non-2xx status throws "Failed: status",
any caught exception message is stored in error, and loading is cleared
in the finally block.  Note that neither message is cleared on entry and
success is never touched. -/
def loadReviews (st : AppState) (resp : GetResponse) : AppState :=
  let st := { st with loading := true }
  match resp with
  | .ok data => { st with items := data, loading := false }
  | .httpError status =>
      { st with error := "Failed: " ++ toString status, loading := false }
  | .networkError msg => { st with error := msg, loading := false }

/-- Outcome of the POST /api/reviews fetch as seen by onSubmit: a 2xx
response (body unused), a non-2xx response whose body parsed as JSON with
an optional string detail field, a non-2xx response whose body failed to
parse (the catch replaces it with the empty object), or a thrown fetch
exception with its message.  (A non-string truthy detail value would be
stringified by the Error constructor; only string details are
modelled.) -/
inductive PostResponse where
  | ok
  | errJson (detail : Option String)
  | errUnparseable
  | networkError (msg : String)
  deriving DecidableEq, Repr

/-- Whether the POST response is a non-2xx HTTP response (res.ok false,
as opposed to a thrown fetch error). -/
def PostResponse.isHttpError : PostResponse → Bool
  | .errJson _ => true
  | .errUnparseable => true
  | _ => false

/-- Result of a submit: the new app state, plus the body of the POST
request when one was issued (none when validation failed before the
network call). -/
structure SubmitResult where
  state : AppState
  posted : Option Payload
  deriving DecidableEq, Repr

/-- The onSubmit handler: clears both messages, sets submitting, builds
the payload, throws on validation failure, otherwise issues the POST;
a non-2xx response throws the body's detail field when truthy (the
empty-object fallback or a falsy detail yields the generic message), a
2xx response sets the success message, resets the form and awaits
loadReviews with the follow-up GET response; every thrown message lands
in error and the finally block clears submitting. -/
def onSubmit (st : AppState) (postResp : PostResponse) (getResp : GetResponse) :
    SubmitResult :=
  let st := { st with error := "", success := "", submitting := true }
  let payload := mkPayload st.form
  match validationError payload with
  | some msg =>
      { state := { st with error := msg, submitting := false }, posted := none }
  | none =>
      match postResp with
      | .ok =>
          let st := { st with success := "Saved!", form := defaultForm }
          let st := loadReviews st getResp
          { state := { st with submitting := false }, posted := some payload }
      | .errJson detail =>
          let msg :=
            match detail with
            | some d => if d = "" then "Failed to save review" else d
            | none => "Failed to save review"
          { state := { st with error := msg, submitting := false }
          , posted := some payload }
      | .errUnparseable =>
          { state := { st with error := "Failed to save review", submitting := false }
          , posted := some payload }
      | .networkError msg =>
          { state := { st with error := msg, submitting := false }
          , posted := some payload }

/-- Form field names, for the onChange handler. -/
inductive Field where
  | title
  | rating
  | review
  | watched_on
  | poster_url
  | tags
  deriving DecidableEq, Repr

/-- The onChange handler: writes the input's value into the named form
field. -/
def FormState.setField (f : FormState) : Field → String → FormState
  | .title, v => { f with title := v }
  | .rating, v => { f with rating := v }
  | .review, v => { f with review := v }
  | .watched_on, v => { f with watched_on := v }
  | .poster_url, v => { f with poster_url := v }
  | .tags, v => { f with tags := v }

/-- User-visible operations on the app: editing a form field, triggering
a list load, or submitting the form (each paired with the network
responses the triggered fetches would observe). -/
inductive Op where
  | change (field : Field) (value : String)
  | load (resp : GetResponse)
  | submit (post : PostResponse) (get : GetResponse)
  deriving DecidableEq, Repr

/-- One operation applied to the app state. -/
def app_step (st : AppState) : Op → AppState
  | .change fld v => { st with form := st.form.setField fld v }
  | .load r => loadReviews st r
  | .submit p g => (onSubmit st p g).state

/-- A sequence of operations applied from a starting state. -/
def app_run (st : AppState) (ops : List Op) : AppState :=
  ops.foldl app_step st

/-- A form state with valid title, review and rating, used to exercise
the post-validation paths on concrete inputs. -/
def formA : FormState :=
  { title := "Dune", rating := "8", review := "Great movie",
    watched_on := "", poster_url := "", tags := "" }

/-- App state holding formA, otherwise the initial state. -/
def stA : AppState := { initState with form := formA }

/-- Variant of formA with an out-of-range rating. -/
def formB : FormState := { formA with rating := "11" }

/-- App state holding formB, otherwise the initial state. -/
def stB : AppState := { initState with form := formB }

/-- Variant of formA with an empty rating field. -/
def formC : FormState := { formA with rating := "" }

/-- App state holding formC, otherwise the initial state. -/
def stC : AppState := { initState with form := formC }

/-- Operation sequence that fills in a valid form and submits it, where
the POST succeeds but the follow-up GET fails with a 500. -/
def reloadFailOps : List Op :=
  [Op.change Field.title "Dune", Op.change Field.review "Great",
   Op.submit PostResponse.ok (GetResponse.httpError 500)]

/-- Submit outcome when validation fails: the thrown message is stored in
error, success stays cleared, submitting is cleared, and no POST is
issued. -/
theorem onSubmit_validation_fail (st : AppState) (p : PostResponse) (g : GetResponse)
    (msg : String) (hv : validationError (mkPayload st.form) = some msg) :
    onSubmit st p g =
      { state := { st with error := msg, success := "", submitting := false }
      , posted := none } := by
  unfold onSubmit
  dsimp only
  rw [hv]

/-- Submit issues the POST with the normalized payload whenever
validation passes, whatever the network outcome. -/
theorem onSubmit_posted_of_valid (st : AppState) (p : PostResponse) (g : GetResponse)
    (hv : validationError (mkPayload st.form) = none) :
    (onSubmit st p g).posted = some (mkPayload st.form) := by
  unfold onSubmit
  dsimp only
  rw [hv]
  cases p <;> rfl

/-- Submit outcome on a 2xx POST response: the success message and the
form reset happen before the awaited reload, whose response is folded in
by loadReviews, and submitting is cleared last. -/
theorem onSubmit_post_ok (st : AppState) (g : GetResponse)
    (hv : validationError (mkPayload st.form) = none) :
    onSubmit st PostResponse.ok g =
      { state :=
          { loadReviews
              { st with
                error := ""
                success := "Saved!"
                form := defaultForm
                submitting := true } g
            with submitting := false }
      , posted := some (mkPayload st.form) } := by
  unfold onSubmit
  dsimp only
  rw [hv]

/-- Submit outcome on a non-2xx POST response with a parsed JSON body: a
truthy detail field is the error message, a missing or empty one falls
back to the generic message. -/
theorem onSubmit_post_errJson (st : AppState) (g : GetResponse) (d : Option String)
    (hv : validationError (mkPayload st.form) = none) :
    onSubmit st (PostResponse.errJson d) g =
      { state :=
          { st with
            error :=
              (match d with
               | some s => if s = "" then "Failed to save review" else s
               | none => "Failed to save review")
            , success := "", submitting := false }
      , posted := some (mkPayload st.form) } := by
  unfold onSubmit
  dsimp only
  rw [hv]

/-- Submit outcome on a non-2xx POST response whose body did not parse:
the generic message is stored. -/
theorem onSubmit_post_errUnparseable (st : AppState) (g : GetResponse)
    (hv : validationError (mkPayload st.form) = none) :
    onSubmit st PostResponse.errUnparseable g =
      { state :=
          { st with
            error := "Failed to save review"
            success := ""
            submitting := false }
      , posted := some (mkPayload st.form) } := by
  unfold onSubmit
  dsimp only
  rw [hv]

/-- Submit outcome when the POST fetch itself throws: the exception
message is stored. -/
theorem onSubmit_post_networkError (st : AppState) (g : GetResponse) (m : String)
    (hv : validationError (mkPayload st.form) = none) :
    onSubmit st (PostResponse.networkError m) g =
      { state := { st with error := m, success := "", submitting := false }
      , posted := some (mkPayload st.form) } := by
  unfold onSubmit
  dsimp only
  rw [hv]

/-- The validation result when title and review are present is decided by
the rating check alone. -/
theorem validationError_of_fields (p : Payload) (ht : p.title ≠ "") (hr : p.review ≠ "") :
    validationError p =
      (if ratingInvalid p.rating then some "Rating must be between 0 and 10" else none) := by
  unfold validationError
  rw [if_neg]
  intro h
  cases h with
  | inl h => exact ht h
  | inr h => exact hr h

/-- C1: whenever the trimmed title or the trimmed review is empty,
onSubmit stores exactly the required-fields message, issues no POST
request, and ends with the submitting flag cleared. -/
theorem C1_required_fields (st : AppState) (p : PostResponse) (g : GetResponse)
    (h : jsTrim st.form.title = "" ∨ jsTrim st.form.review = "") :
    (onSubmit st p g).state.error = "Please provide at least a title and your review."
      ∧ (onSubmit st p g).posted = none
      ∧ (onSubmit st p g).state.submitting = false := by
  have hv : validationError (mkPayload st.form)
      = some "Please provide at least a title and your review." := by
    unfold validationError
    exact if_pos h
  rw [onSubmit_validation_fail st p g _ hv]
  exact ⟨rfl, rfl, rfl⟩

/-- Witness for C1 on the initial (all-empty) form. -/
theorem C1_required_fields_witness :
    (jsTrim initState.form.title = "" ∨ jsTrim initState.form.review = "")
      ∧ (onSubmit initState PostResponse.ok (GetResponse.ok [])).state.error
          = "Please provide at least a title and your review."
      ∧ (onSubmit initState PostResponse.ok (GetResponse.ok [])).posted = none
      ∧ (onSubmit initState PostResponse.ok (GetResponse.ok [])).state.submitting = false :=
  ⟨Or.inl (by decide),
   C1_required_fields initState PostResponse.ok (GetResponse.ok []) (Or.inl (by decide))⟩

/-- C2: with title and review present, onSubmit fails with exactly the
rating message and no POST precisely when the Number conversion of the
rating field is NaN, below 0 or above 10; otherwise the POST is issued
with the normalized payload (in particular ratings 0 and 10 pass). -/
theorem C2_rating_validation (st : AppState) (p : PostResponse) (g : GetResponse)
    (ht : jsTrim st.form.title ≠ "") (hr : jsTrim st.form.review ≠ "") :
    (ratingInvalid (jsNumber st.form.rating) = true →
      (onSubmit st p g).state.error = "Rating must be between 0 and 10"
        ∧ (onSubmit st p g).posted = none
        ∧ (onSubmit st p g).state.submitting = false)
    ∧ (ratingInvalid (jsNumber st.form.rating) = false →
      (onSubmit st p g).posted = some (mkPayload st.form)) := by
  have hch : validationError (mkPayload st.form)
      = (if ratingInvalid (jsNumber st.form.rating) then
          some "Rating must be between 0 and 10" else none) :=
    validationError_of_fields (mkPayload st.form) ht hr
  constructor
  · intro hbad
    rw [hbad] at hch
    simp at hch
    rw [onSubmit_validation_fail st p g _ hch]
    exact ⟨rfl, rfl, rfl⟩
  · intro hgood
    rw [hgood] at hch
    simp at hch
    exact onSubmit_posted_of_valid st p g hch

/-- Witness for C2 at rating 11 (rejected branch) on stB. -/
theorem C2_rating_validation_witness :
    jsTrim stB.form.title ≠ ""
      ∧ jsTrim stB.form.review ≠ ""
      ∧ ratingInvalid (jsNumber stB.form.rating) = true
      ∧ (onSubmit stB PostResponse.ok (GetResponse.ok [])).state.error
          = "Rating must be between 0 and 10"
      ∧ (onSubmit stB PostResponse.ok (GetResponse.ok [])).posted = none :=
  ⟨by decide, by decide, by decide,
   ((C2_rating_validation stB PostResponse.ok (GetResponse.ok [])
      (by decide) (by decide)).1 (by decide)).1,
   ((C2_rating_validation stB PostResponse.ok (GetResponse.ok [])
      (by decide) (by decide)).1 (by decide)).2.1⟩

/-- C3: the tags field of the payload is null for the empty raw string
and otherwise the comma-split, trimmed, empty-filtered pieces in order;
the three concrete shapes from the spec evaluate as stated, with a
commas-only input giving the empty sequence rather than null. -/
theorem C3_tag_normalization :
    (∀ f : FormState, (mkPayload f).tags =
      (if f.tags = "" then none
       else some (((jsSplit ',' f.tags).map jsTrim).filter (fun t => t ≠ ""))))
    ∧ (mkPayload { defaultForm with tags := "action, sci-fi ,  , classic" }).tags
        = some ["action", "sci-fi", "classic"]
    ∧ (mkPayload defaultForm).tags = none
    ∧ (mkPayload { defaultForm with tags := ",,," }).tags = some [] :=
  ⟨fun _ => rfl, by decide, by decide, by decide⟩

/-- C4: a submit whose validation passes and whose POST gets a 2xx
response stores exactly the success message, resets every form field to
its default (rating back to 7), and replaces the review list with the
follow-up GET response. -/
theorem C4_success_flow (st : AppState) (data : List Review)
    (hv : validationError (mkPayload st.form) = none) :
    (onSubmit st PostResponse.ok (GetResponse.ok data)).state.success = "Saved!"
      ∧ (onSubmit st PostResponse.ok (GetResponse.ok data)).state.form = defaultForm
      ∧ (onSubmit st PostResponse.ok (GetResponse.ok data)).state.items = data
      ∧ (onSubmit st PostResponse.ok (GetResponse.ok data)).state.submitting = false := by
  rw [onSubmit_post_ok st (GetResponse.ok data) hv]
  exact ⟨rfl, rfl, rfl, rfl⟩

/-- Witness for C4 on stA with a one-element GET response. -/
theorem C4_success_flow_witness :
    validationError (mkPayload stA.form) = none
      ∧ (onSubmit stA PostResponse.ok (GetResponse.ok [])).state.success = "Saved!"
      ∧ (onSubmit stA PostResponse.ok (GetResponse.ok [])).state.form = defaultForm
      ∧ (onSubmit stA PostResponse.ok (GetResponse.ok [])).state.items = [] :=
  ⟨by decide,
   (C4_success_flow stA [] (by decide)).1,
   (C4_success_flow stA [] (by decide)).2.1,
   (C4_success_flow stA [] (by decide)).2.2.1⟩

/-- C5: the submitting flag is false after every completion of onSubmit,
and a non-2xx POST response leaves the review list, the form fields and
the loading flag untouched (no reload happens). -/
theorem C5_failure_frame (st : AppState) (p : PostResponse) (g : GetResponse) :
    (onSubmit st p g).state.submitting = false
      ∧ (p.isHttpError = true →
          (onSubmit st p g).state.items = st.items
            ∧ (onSubmit st p g).state.form = st.form
            ∧ (onSubmit st p g).state.loading = st.loading) := by
  cases hv : validationError (mkPayload st.form) with
  | some msg =>
    rw [onSubmit_validation_fail st p g msg hv]
    exact ⟨rfl, fun _ => ⟨rfl, rfl, rfl⟩⟩
  | none =>
    cases p with
    | ok =>
      constructor
      · rw [onSubmit_post_ok st g hv]
      · intro hp
        cases hp
    | errJson d =>
      rw [onSubmit_post_errJson st g d hv]
      exact ⟨rfl, fun _ => ⟨rfl, rfl, rfl⟩⟩
    | errUnparseable =>
      rw [onSubmit_post_errUnparseable st g hv]
      exact ⟨rfl, fun _ => ⟨rfl, rfl, rfl⟩⟩
    | networkError m =>
      rw [onSubmit_post_networkError st g m hv]
      exact ⟨rfl, fun _ => ⟨rfl, rfl, rfl⟩⟩

/-- Witness for C5 on stA with a 400-style POST response. -/
theorem C5_failure_frame_witness :
    (PostResponse.errJson (some "Title already exists")).isHttpError = true
      ∧ (onSubmit stA (PostResponse.errJson (some "Title already exists"))
          (GetResponse.ok [])).state.submitting = false
      ∧ (onSubmit stA (PostResponse.errJson (some "Title already exists"))
          (GetResponse.ok [])).state.items = stA.items
      ∧ (onSubmit stA (PostResponse.errJson (some "Title already exists"))
          (GetResponse.ok [])).state.form = stA.form :=
  ⟨by decide,
   (C5_failure_frame stA (PostResponse.errJson (some "Title already exists"))
      (GetResponse.ok [])).1,
   ((C5_failure_frame stA (PostResponse.errJson (some "Title already exists"))
      (GetResponse.ok [])).2 (by decide)).1,
   ((C5_failure_frame stA (PostResponse.errJson (some "Title already exists"))
      (GetResponse.ok [])).2 (by decide)).2.1⟩

/-- C6 counterexample: a non-2xx POST response whose parsed body carries
the detail field with the empty string is not used verbatim as the claim
states; the code falls back to the generic message because the empty
string is falsy. -/
theorem C6_counterexample :
    (onSubmit stA (PostResponse.errJson (some "")) (GetResponse.ok [])).state.error
        = "Failed to save review"
      ∧ (onSubmit stA (PostResponse.errJson (some "")) (GetResponse.ok [])).state.error
          ≠ "" := by
  constructor
  · decide
  · decide

/-- C6 (amended): on a non-2xx POST response after passing validation,
a parsed detail string is used verbatim when it is non-empty, and the
generic message is used when the detail is empty, missing, or the body
did not parse. -/
theorem C6_error_detail (st : AppState) (g : GetResponse) (d : Option String)
    (hv : validationError (mkPayload st.form) = none) :
    (onSubmit st (PostResponse.errJson d) g).state.error
        = (match d with
           | some s => if s = "" then "Failed to save review" else s
           | none => "Failed to save review")
      ∧ (onSubmit st PostResponse.errUnparseable g).state.error
          = "Failed to save review" := by
  rw [onSubmit_post_errJson st g d hv, onSubmit_post_errUnparseable st g hv]
  exact ⟨rfl, rfl⟩

/-- Witness for the amended C6 at a non-empty detail string. -/
theorem C6_error_detail_witness :
    validationError (mkPayload stA.form) = none
      ∧ (onSubmit stA (PostResponse.errJson (some "Title already exists"))
          (GetResponse.ok [])).state.error = "Title already exists" :=
  ⟨by decide,
   (C6_error_detail stA (GetResponse.ok []) (some "Title already exists") (by decide)).1⟩

/-- C7: a load that fails (non-2xx status or thrown fetch/parse error)
keeps the review collection, clears the loading flag, and stores the
message derived from the status code or the exception. -/
theorem C7_load_failure (st : AppState) (r : GetResponse) (h : r.isOk = false) :
    (loadReviews st r).items = st.items
      ∧ (loadReviews st r).loading = false
      ∧ (loadReviews st r).error
          = (match r with
             | GetResponse.ok _ => st.error
             | GetResponse.httpError s => "Failed: " ++ toString s
             | GetResponse.networkError m => m) := by
  cases r with
  | ok d => exact Bool.noConfusion h
  | httpError s => exact ⟨rfl, rfl, rfl⟩
  | networkError m => exact ⟨rfl, rfl, rfl⟩

/-- Witness for C7 at a 404 status. -/
theorem C7_load_failure_witness :
    (GetResponse.httpError 404).isOk = false
      ∧ (loadReviews stA (GetResponse.httpError 404)).items = stA.items
      ∧ (loadReviews stA (GetResponse.httpError 404)).loading = false
      ∧ (loadReviews stA (GetResponse.httpError 404)).error = "Failed: 404" :=
  ⟨by decide,
   (C7_load_failure stA (GetResponse.httpError 404) (by decide)).1,
   (C7_load_failure stA (GetResponse.httpError 404) (by decide)).2.1,
   (C7_load_failure stA (GetResponse.httpError 404) (by decide)).2.2⟩

/-- C8: the payload always carries the trimmed title and review and
turns an empty watched_on or poster_url into null while passing other
values through; concretely a title with surrounding spaces is sent
trimmed. -/
theorem C8_payload_normalization :
    (∀ f : FormState,
      (mkPayload f).title = jsTrim f.title
        ∧ (mkPayload f).review = jsTrim f.review
        ∧ (mkPayload f).watched_on
            = (if f.watched_on = "" then none else some f.watched_on)
        ∧ (mkPayload f).poster_url
            = (if f.poster_url = "" then none else some f.poster_url))
    ∧ (mkPayload { defaultForm with title := "  Inception  " }).title = "Inception" :=
  ⟨fun _ => ⟨rfl, rfl, rfl, rfl⟩, by decide⟩

/-- C9 counterexample: starting from the initial state, filling in a
valid form and submitting it with a 2xx POST but a failing follow-up GET
leaves the success message and the error message simultaneously
non-empty, so the claimed exclusivity fails on this operation
sequence. -/
theorem C9_counterexample :
    (app_run initState reloadFailOps).success = "Saved!"
      ∧ (app_run initState reloadFailOps).error = "Failed: 500"
      ∧ ¬ ((app_run initState reloadFailOps).error = ""
            ∨ (app_run initState reloadFailOps).success = "") := by
  refine ⟨by decide, by decide, ?_⟩
  intro h
  cases h with
  | inl h => exact absurd h (by decide)
  | inr h => exact absurd h (by decide)

/-- C9 (amended): a submit whose POST fails, or whose POST succeeds and
whose follow-up reload also succeeds, leaves at most one message
non-empty, and the messages it produces overwrite whatever messages the
previous operation left; load, however, never clears the success
message (and on success never touches the error message), which is why a
successful POST followed by a failing reload shows both messages. -/
theorem C9_message_exclusivity (st : AppState) (p : PostResponse) (g : GetResponse)
    (h : p = PostResponse.ok → g.isOk = true) :
    ((onSubmit st p g).state.error = "" ∨ (onSubmit st p g).state.success = "")
      ∧ (onSubmit st p g).state.error
          = (onSubmit { st with error := "", success := "" } p g).state.error
      ∧ (onSubmit st p g).state.success
          = (onSubmit { st with error := "", success := "" } p g).state.success
      ∧ (loadReviews st g).success = st.success
      ∧ (g.isOk = true → (loadReviews st g).error = st.error) := by
  refine ⟨?_, rfl, rfl, ?_, ?_⟩
  · cases hv : validationError (mkPayload st.form) with
    | some msg =>
      rw [onSubmit_validation_fail st p g msg hv]
      exact Or.inr rfl
    | none =>
      cases p with
      | ok =>
        cases g with
        | ok data =>
          rw [onSubmit_post_ok st (GetResponse.ok data) hv]
          exact Or.inl rfl
        | httpError s => exact Bool.noConfusion (h rfl)
        | networkError m => exact Bool.noConfusion (h rfl)
      | errJson d =>
        rw [onSubmit_post_errJson st g d hv]
        exact Or.inr rfl
      | errUnparseable =>
        rw [onSubmit_post_errUnparseable st g hv]
        exact Or.inr rfl
      | networkError m =>
        rw [onSubmit_post_networkError st g m hv]
        exact Or.inr rfl
  · cases g with
    | ok data => exact rfl
    | httpError s => exact rfl
    | networkError m => exact rfl
  · intro hg
    cases g with
    | ok data => exact rfl
    | httpError s => exact Bool.noConfusion hg
    | networkError m => exact Bool.noConfusion hg

/-- Witness for the amended C9: a submit whose POST and reload both
succeed shows only the success message. -/
theorem C9_message_exclusivity_witness :
    ((PostResponse.ok = PostResponse.ok → (GetResponse.ok ([] : List Review)).isOk = true)
      ∧ ((onSubmit stA PostResponse.ok (GetResponse.ok [])).state.error = ""
          ∨ (onSubmit stA PostResponse.ok (GetResponse.ok [])).state.success = "")) :=
  ⟨fun _ => by decide,
   (C9_message_exclusivity stA PostResponse.ok (GetResponse.ok [])
      (fun _ => by decide)).1⟩

/-- C10: with title and review present and an empty rating field, the
Number conversion yields 0, validation passes, and the POST is issued
with rating 0 in its payload. -/
theorem C10_empty_rating (st : AppState) (p : PostResponse) (g : GetResponse)
    (ht : jsTrim st.form.title ≠ "") (hr : jsTrim st.form.review ≠ "")
    (he : st.form.rating = "") :
    (mkPayload st.form).rating = some { num := 0, den := 1 }
      ∧ (onSubmit st p g).posted = some (mkPayload st.form) := by
  have h0 : jsNumber st.form.rating = some { num := 0, den := 1 } := by
    rw [he]
    rfl
  have hv : validationError (mkPayload st.form) = none := by
    rw [validationError_of_fields (mkPayload st.form) ht hr]
    have : ratingInvalid (jsNumber st.form.rating) = false := by
      rw [h0]
      rfl
    rw [show (mkPayload st.form).rating = jsNumber st.form.rating from rfl, this]
    rfl
  exact ⟨h0, onSubmit_posted_of_valid st p g hv⟩

/-- Witness for C10 on stC (empty rating field). -/
theorem C10_empty_rating_witness :
    jsTrim stC.form.title ≠ ""
      ∧ jsTrim stC.form.review ≠ ""
      ∧ stC.form.rating = ""
      ∧ (mkPayload stC.form).rating = some { num := 0, den := 1 }
      ∧ (onSubmit stC PostResponse.ok (GetResponse.ok [])).posted
          = some (mkPayload stC.form) :=
  ⟨by decide, by decide, by decide,
   (C10_empty_rating stC PostResponse.ok (GetResponse.ok [])
      (by decide) (by decide) (by decide)).1,
   (C10_empty_rating stC PostResponse.ok (GetResponse.ok [])
      (by decide) (by decide) (by decide)).2⟩

end MovieApp
